import Mathlib

/-!
Verification development for the evidence-to-prompt pipeline of
`topic_agent.py` (BrowzerLabs/Browzer).

Modelling conventions, used throughout:

* Python strings are modelled as `List Char` (`Text`); `len` is `List.length`,
  slicing `s[:n]` is `List.take n`, `+` is `List.append`.
* Python integer division `//` on nonnegative operands is `Nat` division; where
  a Python quantity can go negative (token budgets inside prompt assembly) we
  use `Int`, with Python `//` being floor division (`Int` `/`, i.e. `ediv`,
  for a positive divisor) and `int(x)` on a float truncating toward zero
  (`Int.tdiv` on the exact rational value).
* Float arithmetic (`max_tokens * 0.9`, time measurements) is modelled as exact
  rational arithmetic; the truncation bounds proved here are robust to the
  (sub-ulp) rounding error of the real implementation.
* External collaborators (network fetch, BeautifulSoup extraction, NLTK
  tokenizers, the LLM client, `urllib` query parsing, wall-clock time) are
  parameters of the embedded functions, as the spec designates them external.
-/

namespace Browzer

set_option maxRecDepth 4000

abbrev Text := List Char

/-- Embeds `estimate_tokens` (topic_agent.py, lines 49-53): `0` for falsy (empty)
input, otherwise `len(text) // 4`. -/
def estimate_tokens (text : Text) : Nat :=
  if text = [] then 0 else text.length / 4

/-- The literal truncation marker appended by `truncate_content_by_tokens`. -/
def truncMarker : Text := "... [truncated due to length]".toList

/-- Embeds `truncate_content_by_tokens` (lines 55-71).  `maxTokens` is an `Int`
because call sites inside `create_question_answer` can pass a negative
remaining budget.  `target_length = int(len(text) * (max_tokens*0.9)/est)` is
the exact rational value truncated toward zero, i.e. `Int.tdiv` of
`9*len*maxTokens` by `10*est`.  (When `est = 0` and `maxTokens < 0` the Python
code would raise `ZeroDivisionError`; that corner is unreachable from the
call sites in this file, and the model returns the minimal fragment there.) -/
def truncate_content_by_tokens (text : Text) (maxTokens : Int) : Text :=
  if text = [] then text
  else if (estimate_tokens text : Int) ≤ maxTokens then text
  else
    let target : Int :=
      Int.tdiv (9 * (text.length : Int) * maxTokens) (10 * (estimate_tokens text : Int))
    if target < 100 then text.take 100 ++ truncMarker
    else text.take target.toNat ++ truncMarker

/-! ## String utilities shared by `clean_query`, `is_question` and the
summarizer.  `wordChar` models the regex class `\w`, `Char.isWhitespace`
models `\s`, `collapseWs` models `re.sub(r'\s+', ' ', ·)` and `stripChars`
models Python `str.strip()`. -/

/-- Python regex `\w` (word character), restricted to the alphanumeric plus
underscore reading used by the queries this code handles. -/
def wordChar (c : Char) : Bool := c.isAlphanum || c = '_'

/-- Embeds `re.sub(r'\s+', ' ', s)`: replace every maximal whitespace run by a single
space. -/
def collapseWs : Text → Text
  | [] => []
  | c :: rest =>
    if c.isWhitespace then ' ' :: collapseWs (rest.dropWhile Char.isWhitespace)
    else c :: collapseWs rest
termination_by l => l.length
decreasing_by
  · simp only [List.length_cons]
    have := (List.dropWhile_sublist (l := rest) Char.isWhitespace).length_le
    omega
  · simp only [List.length_cons]
    omega

/-- Python `str.strip()`. -/
def stripChars (t : Text) : Text :=
  (t.dropWhile Char.isWhitespace).rdropWhile Char.isWhitespace

/-- The generic cleaning path of `clean_query` (lines 204-213): special
characters replaced by spaces (`re.sub(r'[^\w\s]', ' ', ·)`), whitespace
collapsed, stripped, then capped at 150 characters. -/
def cleanFallback (query : Text) : Text :=
  (stripChars (collapseWs (query.map
    (fun c => if wordChar c || c.isWhitespace then c else ' ')))).take 150

/-- Embeds `clean_query` (lines 192-216), with the `urlparse`/`parse_qs` lookup of
the `q` parameter supplied as the external collaborator `extractQ` (returning
`none` when the URL carries no `q` parameter).  The `except` fallback of the
source (returning the query unchanged) is unreachable in this total model. -/
def clean_query (extractQ : Text → Option Text) (query : Text) : Text :=
  if ('?' ∈ query) ∧ (("http://".toList <:+: query) ∨ ("https://".toList <:+: query)) then
    match extractQ query with
    | some v => v
    | none => cleanFallback query
  else cleanFallback query

/-! ## Data model (spec §3), as populated by `process_query` and `main`.
Absent optional dictionary fields are modelled by their Python `.get`
defaults (empty string / `0` / `False`). -/

/-- One entry of `model_info['additionalContexts']` (an `@`-mention context).
`contentText` / `contentHtml` model `ctx['content']['content']` and
`ctx['content']['html']`; an absent field is the empty string. -/
structure Ctx where
  title : Text
  url : Text
  contentText : Text
  contentHtml : Text
  deriving DecidableEq

/-- The `pageContent` dictionary.  `htmlContent` empty models an absent or
empty `'htmlContent'` entry (the code checks presence and truthiness
together on the paths the claims exercise). -/
structure Page where
  title : Text
  url : Text
  content : Text
  htmlContent : Text
  deriving DecidableEq

/-- One `conversationHistory` item; `domain`/`topic`/`timestamp` model the
nested `'source'` dictionary (`''`/`0` when absent). -/
structure HistItem where
  role : Text
  content : Text
  isMemory : Bool
  domain : Text
  topic : Text
  timestamp : Nat
  deriving DecidableEq

/-- The parts of `model_info` that `process_query` reads (the provider name
and API key live inside the external LLM collaborator). -/
structure ModelInfo where
  isQuestionFlag : Option Bool
  originalQuery : Text
  isAboutLinks : Bool
  additionalContexts : List Ctx
  deriving DecidableEq

/-- One evidence item (a `summaries` entry): `{'title', 'url', 'summary'}`
plus the optional `'is_full_content'` / `'has_html'` flags (default `False`). -/
structure Summary where
  title : Text
  url : Text
  summary : Text
  is_full_content : Bool
  has_html : Bool
  deriving DecidableEq

/-! ## Query classifier -/

/-- Python `str.split()` with no arguments: whitespace-delimited words,
empty pieces discarded. -/
def splitWs (t : Text) : List Text :=
  (List.splitOnP (fun c => c.isWhitespace) t).filter (fun w => w ≠ [])

/-- Python `str.lower()` (ASCII reading). -/
def lowerText (t : Text) : Text := t.map Char.toLower

/-- The fixed interrogative-word list of `is_question` (line 330). -/
def questionWords : List Text :=
  ["who", "what", "when", "where", "why", "how", "did", "do", "does", "is",
   "are", "was", "were"].map String.toList

/-- Embeds `is_question` (lines 317-337): URLs are never questions; an explicit
`DIRECT QUESTION:` marker or a trailing `?` (after strip) forces `true`; else
any whitespace-delimited lowercased token in the interrogative set. -/
def is_question (query : Text) : Bool :=
  if "http://".toList.isPrefixOf query || "https://".toList.isPrefixOf query then false
  else if decide ("DIRECT QUESTION:".toList <:+: query)
      || ((stripChars query).getLast? == some '?') then true
  else if (splitWs (lowerText query)).any (fun w => questionWords.contains w) then true
  else false

/-- Embeds `query.startswith('http://') or query.startswith('https://')`
(line 942). -/
def isUrlQuery (query : Text) : Bool :=
  "http://".toList.isPrefixOf query || "https://".toList.isPrefixOf query

/-- The question-flag computation of `process_query` (lines 941-959): a URL
query forces the flag to `false`; otherwise the caller flag (defaulting to
`is_question`), or-ed with `model_info['isQuestion']`, forced `true` when
`model_info['originalQuery']` is a nonempty question. -/
def pipeline_is_question (query : Text) (isQParam : Option Bool)
    (mi : Option ModelInfo) : Bool :=
  if isUrlQuery query then false
  else
    let q1 := match isQParam with
      | some b => b
      | none => is_question query
    let q2 := match mi with
      | some m =>
        match m.isQuestionFlag with
        | some b => q1 || b
        | none => q1
      | none => q1
    match mi with
    | some m =>
      if m.originalQuery ≠ [] ∧ is_question m.originalQuery = true then true else q2
    | none => q2

/-! ## Extractive summarizer (`summarize_text`, lines 145-190)

The NLTK sentence/word tokenizers and the stopword list are external
collaborators and appear as parameters.  Python's `heapq.nlargest(n, it, key)`
is documented as `sorted(it, key=key, reverse=True)[:n]`, a stable descending
sort followed by `take`; both stable sorts are modelled by Mathlib's (stable)
insertion sort. -/

/-- Python `str.isalnum()` of a token: nonempty and all alphanumeric. -/
def isAlnumToken (w : Text) : Bool := !w.isEmpty && w.all Char.isAlphanum

/-- Embeds `' '.join(xs)`. -/
def joinSpace (xs : List Text) : Text := List.intercalate [' '] xs

/-- The filtered word tokens of the whole text (lines 161-162): lowercased
word tokens that are alphanumeric and not stopwords.  `FreqDist` over this
list has keys = its elements and counts = occurrence counts. -/
def summaryWordTokens (wordTok : Text → List Text) (stops : List Text)
    (text : Text) : List Text :=
  (wordTok (lowerText text)).filter (fun w => isAlnumToken w && !stops.contains w)

/-- Embeds `sentence_scores` (lines 167-175) as an association list in dict insertion
order (ascending sentence index): for each sentence with at least one word
token present in the frequency distribution, the sum of `freq_dist[word]` over
those tokens (with multiplicity). -/
def summaryScores (wordTok : Text → List Text) (wt : List Text)
    (sentences : List Text) : List (Nat × Nat) :=
  sentences.enum.filterMap (fun p =>
    let qual := (wordTok (lowerText p.2)).filter (fun w => wt.contains w)
    if qual = [] then none
    else some (p.1, (qual.map (fun w => wt.count w)).sum))

/-- Embeds `heapq.nlargest(num, sentence_scores.items(), key=lambda x: x[1])`
(line 182): stable descending sort by score, then take `num`. -/
def nlargestByScore (num : Nat) (items : List (Nat × Nat)) : List (Nat × Nat) :=
  (items.insertionSort (fun a b => b.2 ≤ a.2)).take num

/-- Embeds `sorted(top_sentences, key=lambda x: x[0])` (line 183). -/
def sortByIdx (items : List (Nat × Nat)) : List (Nat × Nat) :=
  items.insertionSort (fun a b => a.1 ≤ b.1)

/-- Embeds `summarize_text` (lines 145-190).  The `except` fallback (hard 500-char
truncation on tokenizer failure) is unreachable in this total model. -/
def summarize_text (sentTok wordTok : Text → List Text) (stops : List Text)
    (text : Text) (num : Nat) : Text :=
  if text.length < 100 then text
  else if (sentTok text).length ≤ num then text
  else if summaryScores wordTok (summaryWordTokens wordTok stops text) (sentTok text)
      = [] then
    joinSpace ((sentTok text).take num)
  else
    joinSpace ((sortByIdx (nlargestByScore num
        (summaryScores wordTok (summaryWordTokens wordTok stops text) (sentTok text)))).map
      (fun p => (sentTok text).getD p.1 []))

/-- A simple concrete sentence splitter (split at `'.'`, drop empty pieces),
standing in for `nltk.sent_tokenize` in concrete evaluations. -/
def sentSimple (t : Text) : List Text := (t.splitOn '.').filter (fun s => s ≠ [])

/-- A simple concrete word splitter (split at spaces), standing in for
`nltk.word_tokenize` in concrete evaluations. -/
def wordSimple (t : Text) : List Text := (t.splitOn ' ').filter (fun s => s ≠ [])

instance instIsTotalFstLe : IsTotal (Nat × Nat) (fun a b => a.1 ≤ b.1) :=
  ⟨fun a b => Nat.le_total a.1 b.1⟩

instance instIsTransFstLe : IsTrans (Nat × Nat) (fun a b => a.1 ≤ b.1) :=
  ⟨fun _ _ _ h1 h2 => Nat.le_trans h1 h2⟩

/-- A 41-character text with 6 sentences. -/
def demoShortText : Text := "Aa bb. Cc dd. Ee ff. Gg hh. Ii jj. Kk ll.".toList

/-- A 101-character text with 7 sentences of which only the first two contain
any alphanumeric word token. -/
def demoLongText : Text :=
  "alpha beta. gamma delta. !!! ???. ??? !!!. !!! !!!. ??? ???. !!!! ???? !!!! ???? !!!! ???? !!!! ????.".toList

/-! ## Evidence collection from URLs (`process_urls`, lines 273-315)

`fetch` models `get_webpage_content` (`none` = failure), `extract` models
`extract_text` (BeautifulSoup-based), `getTitle` the `<title>` lookup of
lines 298-306; all three are external collaborators.  The loop is
instrumented with the list of URLs actually fetched: the 3-item cap check
runs at the top of each iteration (line 279), before any fetch. -/

section ProcessUrls

variable (fetch : Text → Option Text) (extract : Text → Text) (getTitle : Text → Text)

variable (sentTok wordTok : Text → List Text) (stops : List Text)

/-- The loop of `process_urls` (lines 278-313) over the remaining URLs, with
accumulator, returning the summaries and the fetch trace. -/
def process_urls_aux : List Text → List Summary → List Summary × List Text
  | [], acc => (acc, [])
  | url :: rest, acc =>
    if 3 ≤ acc.length then (acc, [])
    else
      match fetch url with
      | none =>
        let r := process_urls_aux rest acc
        (r.1, url :: r.2)
      | some page =>
        if (extract page).length < 200 then
          let r := process_urls_aux rest acc
          (r.1, url :: r.2)
        else
          if summarize_text sentTok wordTok stops (extract page) 5 = [] then
            let r := process_urls_aux rest acc
            (r.1, url :: r.2)
          else
            let r := process_urls_aux rest
              (acc ++ [⟨getTitle page, url,
                summarize_text sentTok wordTok stops (extract page) 5, false, false⟩])
            (r.1, url :: r.2)

/-- Embeds `process_urls` (lines 273-315): the returned summaries. -/
def process_urls (urls : List Text) : List Summary :=
  (process_urls_aux fetch extract getTitle sentTok wordTok stops urls []).1

/-- The URLs `process_urls` actually fetches. -/
def process_urls_fetched (urls : List Text) : List Text :=
  (process_urls_aux fetch extract getTitle sentTok wordTok stops urls []).2

end ProcessUrls

/-- A 250-character page body with no sentence break (summarized to itself). -/
def demoPage : Text := List.replicate 250 'b'

/-! ## Prompt assembly for question answering
(`create_question_answer`, lines 453-798)

The comparison-query predicate `_is_comparison_query` (lines 800-831) is
threaded as the parameter `isCmp`: it is internal repo code, but its
regex-based value is not touched by any claim, and none of the theorems below
depend on it.  The LLM client (`generate_llm_response`, lines 339-451,
including its missing-API-key early return) is the external parameter `llm`,
returning `(success, answer, elapsed-seconds)`.

One source fact that simplifies the embedding: `memory_items` entries are
rebuilt as bare `{'role', 'content'}` dictionaries (line 539), so the
domain-grouping pass (lines 564-602) always finds `item.get('source', {})`
empty — `domain_groups` stays empty and the grouped-memory branch (guarded by
`len(domain_groups) > 1`) is dead code; every memory item is rendered on the
ungrouped path. -/

/-- Fuel-driven worker for `replaceAll`; the fuel starts at the input length
and, because a nonempty-pattern match consumes at least one character, never
runs out before the input does. -/
def replaceAllGo (pat rep : Text) : Nat → Text → Text
  | _, [] => []
  | 0, l => l
  | fuel + 1, c :: rest =>
    if pat ≠ [] ∧ pat.isPrefixOf (c :: rest) then
      rep ++ replaceAllGo pat rep fuel ((c :: rest).drop pat.length)
    else c :: replaceAllGo pat rep fuel rest

/-- Python `str.replace(pat, rep)`: replace non-overlapping occurrences left
to right.  (For the empty pattern Python would interleave `rep` everywhere;
the only call site uses the fixed pattern `"DIRECT QUESTION:"`, so the model
leaves the input unchanged for an empty pattern.) -/
def replaceAll (pat rep s : Text) : Text := replaceAllGo pat rep s.length s

/-- Structured result of one pipeline run (`data` dictionary shape). -/
structure PipelineResult where
  query : Text
  summaries : List Summary
  consolidated_summary : Option Text
  generation_time : ℚ
  isQuestion : Bool
  deriving DecidableEq

/-- Embeds `clean_query = query.replace("DIRECT QUESTION:", "").strip()` (line 466). -/
def qaCleanQuery (query : Text) : Text :=
  stripChars (replaceAll "DIRECT QUESTION:".toList [] query)

/-- The fixed question-answering system prompt (lines 473-485), as the
concatenation of the adjacent string literals of the source. -/
def qaSystemPrompt : Text :=
  "You are a helpful assistant that answers questions accurately and thoroughly. ".toList
  ++ "Always provide a direct answer to questions. ".toList
  ++ "IMPORTANT INSTRUCTIONS:\n".toList
  ++ "1. If the answer IS in the provided sources or memory, use that information and cite sources.\n".toList
  ++ "2. If the answer is NOT in the sources or memory, use your general knowledge to provide the best possible answer.\n".toList
  ++ "3. NEVER refuse to answer - always provide your best response.\n".toList
  ++ "4. When using general knowledge not from sources, clearly indicate this.\n".toList
  ++ "5. Keep your answers concise and relevant to the question.\n".toList
  ++ "6. If there are multiple sources or memories with conflicting information, acknowledge this and explain the differences.\n".toList
  ++ "7. When comparing information from different sources, organize your answer in a structured way that highlights similarities and differences.\n".toList
  ++ "8. When memory items contain information from pages visited at different times, clearly identify temporal relationships like 'according to more recent information' or 'previously known information'.".toList

/-- History items whose content does not strip to empty (line 513 `continue`). -/
def qaHistKept (hist : List HistItem) : List HistItem :=
  hist.filter (fun h => stripChars h.content ≠ [])

/-- Embeds `memory_items` (line 539): kept memory entries, reduced to role/content. -/
def qaMemoryItems (hist : List HistItem) : List (Text × Text) :=
  (qaHistKept hist).filterMap
    (fun h => if h.isMemory then some (h.role, h.content) else none)

/-- Embeds `current_conversation` (line 541). -/
def qaConversation (hist : List HistItem) : List (Text × Text) :=
  (qaHistKept hist).filterMap
    (fun h => if h.isMemory then none else some (h.role, h.content))

/-- Embeds `memory_domains` (lines 519-521).  The Python `set` has no specified
iteration order; it is modelled as first-occurrence deduplication, which
affects only the ordering inside the joined domain list in the comparison
note, not any length or count the code measures. -/
def qaMemoryDomains (hist : List HistItem) : List Text :=
  ((qaHistKept hist).filterMap
    (fun h => if h.isMemory ∧ h.domain ≠ [] then some h.domain else none)).dedup

/-- The collected memory timestamps (lines 533-535). -/
def qaTimestamps (hist : List HistItem) : List Nat :=
  (qaHistKept hist).filterMap
    (fun h => if h.isMemory ∧ h.timestamp ≠ 0 then some h.timestamp else none)

/-- Embeds `has_multiple_sources` (line 544). -/
def qaHasMultipleSources (hist : List HistItem) : Bool :=
  decide (1 < (qaMemoryDomains hist).length)

/-- Embeds `has_temporal_differences` (line 545): more than one timestamp, spread
over more than 24 hours (in milliseconds). -/
def qaHasTemporalDiff (hist : List HistItem) : Bool :=
  decide (1 < (qaTimestamps hist).length)
    && decide (86400000 <
        ((qaTimestamps hist).max?.getD 0) - ((qaTimestamps hist).min?.getD 0))

/-- Embeds `comparison_note` (lines 551-556). -/
def qaComparisonNote (hist : List HistItem) : Text :=
  "COMPARISON CONTEXT: This question appears to be comparing information across multiple sources ".toList
  ++ "from domains: ".toList
  ++ List.intercalate ", ".toList (qaMemoryDomains hist)
  ++ ". ".toList
  ++ (if qaHasTemporalDiff hist then
      "These sources were accessed at different times, so temporal context may be relevant. ".toList
    else [])
  ++ "When answering, explicitly compare and contrast information from different sources.\n\n".toList

/-- One ungrouped memory item rendering (lines 605-613). -/
def qaRenderMemItem (p : Text × Text) : Text :=
  if p.1 = "user".toList then "Previous Question: ".toList ++ p.2 ++ "\n\n".toList
  else if p.1 = "assistant".toList then "Previous Answer: ".toList ++ p.2 ++ "\n\n".toList
  else []

/-- Embeds `memory_content` before the token check (lines 560-621; the grouped
branch is dead, see the section comment). -/
def qaMemoryContentRaw (isCmpQ : Bool) (hist : List HistItem) : Text :=
  "MEMORY CONTEXT (Information from previous conversations):\n".toList
  ++ ((qaMemoryItems hist).map qaRenderMemItem).flatten
  ++ "---\n\n".toList
  ++ (if isCmpQ ∧ qaHasMultipleSources hist = true then
      ("IMPORTANT: The question is asking to compare information across different sources or time periods. Please clearly identify differences and similarities between sources and explain any discrepancies you find.\n\n").toList
    else [])

/-- Embeds `memory_content` after the token check (lines 624-628). -/
def qaMemoryContent (isCmpQ : Bool) (hist : List HistItem) : Text :=
  if 20000 < estimate_tokens (qaMemoryContentRaw isCmpQ hist) then
    truncate_content_by_tokens (qaMemoryContentRaw isCmpQ hist) 20000
  else qaMemoryContentRaw isCmpQ hist

/-- Embeds `memory_section` (lines 547-630): optional comparison note, then the
memory content when there are memory items. -/
def qaMemorySection (isCmpQ : Bool) (hist : List HistItem) : Text :=
  (if isCmpQ ∧ qaHasMultipleSources hist = true then qaComparisonNote hist else [])
  ++ (if qaMemoryItems hist ≠ [] then qaMemoryContent isCmpQ hist else [])

/-- Embeds `conv_content` before the token check (lines 637-646). -/
def qaConvContentRaw (hist : List HistItem) : Text :=
  "RECENT CONVERSATION:\n".toList
  ++ ((qaConversation hist).map (fun p =>
      if p.1 = "user".toList then "User: ".toList ++ p.2 ++ "\n\n".toList
      else if p.1 = "assistant".toList then "Assistant: ".toList ++ p.2 ++ "\n\n".toList
      else [])).flatten
  ++ "---\n\n".toList

/-- Embeds `conv_content` after the token check against the memory pool remainder
(lines 649-654); the remainder can be negative. -/
def qaConvContent (isCmpQ : Bool) (hist : List HistItem) : Text :=
  if (20000 - (estimate_tokens (qaMemorySection isCmpQ hist) : Int))
      < (estimate_tokens (qaConvContentRaw hist) : Int) then
    truncate_content_by_tokens (qaConvContentRaw hist)
      (20000 - (estimate_tokens (qaMemorySection isCmpQ hist) : Int))
  else qaConvContentRaw hist

/-- Embeds `conversation_section` (lines 635-658). -/
def qaConversationSection (isCmpQ : Bool) (hist : List HistItem) : Text :=
  if qaConversation hist ≠ [] then qaConvContent isCmpQ hist else []

/-- Embeds `current_token_count` just before the sources section (lines 487-658):
system prompt, question line, then the memory/conversation tokens actually
added (the comparison note is not counted — the code adds only
`estimate_tokens(memory_content)` / `(conv_content)`). -/
def qaCountBeforeSources (isCmpQ : Bool) (query : Text) (hist : List HistItem) : Nat :=
  estimate_tokens qaSystemPrompt
  + estimate_tokens ("QUESTION: ".toList ++ qaCleanQuery query ++ "\n\n".toList)
  + (if qaMemoryItems hist ≠ [] then estimate_tokens (qaMemoryContent isCmpQ hist) else 0)
  + (if qaConversation hist ≠ [] then estimate_tokens (qaConvContent isCmpQ hist) else 0)

/-- Embeds `sources_section` header (line 661). -/
def sourcesHeader : Text := "CURRENT QUESTION AND SOURCES:\n".toList

/-- Embeds `available_source_tokens` (lines 677-678 and 714, the same formula):
`min(100000, 180000 - used - 5000)` with `used` = tokens so far plus the
header estimate; can be negative. -/
def qaAvailableSourceTokens (countBefore : Nat) : Int :=
  min 100000 (180000 - ((countBefore + estimate_tokens sourcesHeader : Nat) : Int) - 5000)

/-- Embeds `tokens_per_source` on the full-content path (line 683): floor division
by the number of full-content sources. -/
def qaTokensPerSourceFull (countBefore : Nat) (summaries : List Summary) : Int :=
  Int.fdiv (qaAvailableSourceTokens countBefore)
    ((summaries.filter (fun s => s.is_full_content)).length : Int)

/-- Embeds `tokens_per_source` on the summarized path (line 715). -/
def qaTokensPerSourceElse (countBefore : Nat) (summaries : List Summary) : Int :=
  Int.fdiv (qaAvailableSourceTokens countBefore) (summaries.length : Int)

/-- The visible content of one full-content source (lines 691-696). -/
def qaVisibleFull (tps : Int) (s : Summary) : Text :=
  if tps < (estimate_tokens s.summary : Int) then
    truncate_content_by_tokens s.summary tps
  else s.summary

/-- The visible content of one summarized source (lines 719-724): truncated
to `min(tokens_per_source, estimate_tokens("." * 500))` when it exceeds the
allotment or 500 characters. -/
def qaVisibleElse (tps : Int) (s : Summary) : Text :=
  if tps < (estimate_tokens s.summary : Int) ∨ 500 < s.summary.length then
    truncate_content_by_tokens s.summary
      (min tps ((estimate_tokens (List.replicate 500 '.') : Nat) : Int))
  else s.summary

/-- One full-content source rendering (lines 685-711). -/
def qaRenderFullSource (tps : Int) (s : Summary) : Text :=
  "Title: ".toList ++ s.title ++ "\n".toList
  ++ "URL: ".toList ++ s.url ++ "\n".toList
  ++ "Content: ".toList ++ qaVisibleFull tps s ++ "\n\n".toList
  ++ ("IMPORTANT: This is content from the webpage. The answer to the question is likely contained within this content. Please read through the content carefully to find relevant information.\n\n").toList
  ++ (if s.has_html then
      ("NOTE: This content includes HTML with actual links in the format 'text [LINK: url]'. When referring to links, use the exact URLs provided. Do not create or guess URLs. If asked about links or articles, only mention those that are explicitly present in the content.\n\n").toList
    else [])

/-- One summarized source rendering (lines 717-729), with its 1-based index. -/
def qaRenderElseSource (tps : Int) (p : Nat × Summary) : Text :=
  "Source ".toList ++ (Nat.repr p.1).toList ++ ":\n".toList
  ++ "Title: ".toList ++ p.2.title ++ "\n".toList
  ++ "URL: ".toList ++ p.2.url ++ "\n".toList
  ++ "Content: ".toList ++ qaVisibleElse tps p.2 ++ "\n\n".toList

/-- Embeds `sources_section` (lines 660-733). -/
def qaSourcesSection (countBefore : Nat) (summaries : List Summary) : Text :=
  sourcesHeader ++
  (if summaries ≠ [] then
    (if summaries.any (fun s => s.is_full_content) then
      "FULL WEBPAGE CONTENT (complete, not summarized):\n\n".toList
      ++ ((summaries.filter (fun s => s.is_full_content)).map
          (qaRenderFullSource (qaTokensPerSourceFull countBefore summaries))).flatten
    else
      ((summaries.enumFrom 1).map
        (qaRenderElseSource (qaTokensPerSourceElse countBefore summaries))).flatten)
  else
    "No recent sources are available. Please answer based on memory context and your general knowledge.\n\n".toList)

/-- Embeds `final_instruction` (lines 739-755). -/
def qaFinalInstruction (isCmpQ : Bool) : Text :=
  ("Now answer the question directly and specifically. If the answer is in the sources or memory context, cite the source. If the information is not in the sources but in memory, indicate which memory item contains the information. If neither sources nor memory contain the answer, provide the answer from your general knowledge and clearly state that it comes from your knowledge rather than the provided sources.").toList
  ++ (if isCmpQ then
      ("\n\nSince this question involves comparing information, please structure your answer to clearly highlight similarities and differences between sources. You may use a structured format like:\n* Point of comparison 1: [Source A says X, Source B says Y]\n* Point of comparison 2: [Source A says P, Source B says Q]\nConclude with insights about why these differences might exist.").toList
    else [])

/-- The assembled user prompt before the final global check (line 758). -/
def qaUserPromptPre (isCmp : Text → Bool) (query : Text) (summaries : List Summary)
    (hist : List HistItem) : Text :=
  "QUESTION: ".toList ++ qaCleanQuery query ++ "\n\n".toList
  ++ qaMemorySection (isCmp (qaCleanQuery query)) hist
  ++ qaConversationSection (isCmp (qaCleanQuery query)) hist
  ++ qaSourcesSection (qaCountBeforeSources (isCmp (qaCleanQuery query)) query hist) summaries
  ++ qaFinalInstruction (isCmp (qaCleanQuery query))

/-- The user prompt after the final global check (lines 761-771): when system
plus user tokens exceed 180000, the user prompt is truncated directly to
`180000 - system_tokens - 1000`. -/
def qaUserPrompt (isCmp : Text → Bool) (query : Text) (summaries : List Summary)
    (hist : List HistItem) : Text :=
  if 180000 < estimate_tokens qaSystemPrompt
      + estimate_tokens (qaUserPromptPre isCmp query summaries hist) then
    truncate_content_by_tokens (qaUserPromptPre isCmp query summaries hist)
      (180000 - (estimate_tokens qaSystemPrompt : Int) - 1000)
  else qaUserPromptPre isCmp query summaries hist

/-- The full-path allotment as used by `qaUserPromptPre`. -/
def qaTpsFull (isCmp : Text → Bool) (query : Text) (summaries : List Summary)
    (hist : List HistItem) : Int :=
  qaTokensPerSourceFull (qaCountBeforeSources (isCmp (qaCleanQuery query)) query hist)
    summaries

/-- The summarized-path allotment as used by `qaUserPromptPre`. -/
def qaTpsElse (isCmp : Text → Bool) (query : Text) (summaries : List Summary)
    (hist : List HistItem) : Int :=
  qaTokensPerSourceElse (qaCountBeforeSources (isCmp (qaCleanQuery query)) query hist)
    summaries

/-- Embeds `create_question_answer` (lines 453-798): assemble, call the LLM, package
the result (success or the soft failure message, both carrying the LLM
elapsed time and `isQuestion=True`). -/
def create_question_answer (isCmp : Text → Bool)
    (llm : Text × Text → Bool × Text × ℚ) (query : Text)
    (summaries : List Summary) (hist : List HistItem) : Bool × PipelineResult :=
  let r := llm (qaSystemPrompt, qaUserPrompt isCmp query summaries hist)
  if r.1 then
    (true, ⟨qaCleanQuery query, summaries, some r.2.1, r.2.2, true⟩)
  else
    (false, ⟨qaCleanQuery query, summaries,
      some "Failed to generate an answer to your question.".toList, r.2.2, true⟩)

/-- A 204-character full-content evidence item. -/
def cxSource : Summary := ⟨[], [], List.replicate 204 'a', true, false⟩

/-- Provides 2500 copies of `cxSource`: an evidence set whose estimated token sum
(127500) exceeds the 100000-token source ceiling. -/
def cxSummaries : List Summary := List.replicate 2500 cxSource

/-! ## Summary generation (`create_summary`, lines 833-930) -/

/-- The summarization system prompt (lines 842-846). -/
def csSystemPrompt : Text :=
  "You are a helpful assistant that creates concise, accurate summaries. ".toList
  ++ "Summarize the provided sources into a coherent overview that captures the key points. ".toList
  ++ "Focus on accuracy and clarity.".toList

/-- Embeds `tokens_per_source` for summary generation (line 861): the flat
150000-token source ceiling divided by the number of sources. -/
def csTps (summaries : List Summary) : Int :=
  Int.fdiv 150000 (summaries.length : Int)

/-- The visible content of one source in summary generation (lines 864-874):
token-truncated when over the allotment, else hard-capped at 497 characters
plus `"..."` when longer than 500. -/
def csVisible (tps : Int) (s : Summary) : Text :=
  if tps < (estimate_tokens s.summary : Int) then
    truncate_content_by_tokens s.summary tps
  else if 500 < s.summary.length then s.summary.take 497 ++ "...".toList
  else s.summary

/-- One source rendering for summary generation (lines 876-881). -/
def csRenderSource (tps : Int) (p : Nat × Summary) : Text :=
  "Source ".toList ++ (Nat.repr p.1).toList ++ ":\n".toList
  ++ "Title: ".toList ++ p.2.title ++ "\n".toList
  ++ "URL: ".toList ++ p.2.url ++ "\n".toList
  ++ "Content: ".toList ++ csVisible tps p.2 ++ "\n\n".toList

/-- The assembled summary user prompt before the final check
(lines 852-891). -/
def csUserPromptPre (query : Text) (summaries : List Summary) : Text :=
  "Please create a summary for: ".toList ++ query ++ "\n\n".toList
  ++ "Here are the sources to summarize:\n\n".toList
  ++ (if summaries ≠ [] then
      ((summaries.enumFrom 1).map (csRenderSource (csTps summaries))).flatten
    else "No sources are available for summarization.\n\n".toList)
  ++ ("Create a well-structured summary that captures the key information from all sources. Focus on accuracy and readability. Keep the consolidated summary concise (less than 150 words).").toList

/-- The summary user prompt after the final check (lines 894-903), identical
in shape to the question-answer one. -/
def csUserPrompt (query : Text) (summaries : List Summary) : Text :=
  if 180000 < estimate_tokens csSystemPrompt
      + estimate_tokens (csUserPromptPre query summaries) then
    truncate_content_by_tokens (csUserPromptPre query summaries)
      (180000 - (estimate_tokens csSystemPrompt : Int) - 1000)
  else csUserPromptPre query summaries

/-- Embeds `create_summary` (lines 833-930). -/
def create_summary (llm : Text × Text → Bool × Text × ℚ) (query : Text)
    (summaries : List Summary) : Bool × PipelineResult :=
  let r := llm (csSystemPrompt, csUserPrompt query summaries)
  if r.1 then
    (true, ⟨query, summaries, some r.2.1, r.2.2, false⟩)
  else
    (false, ⟨query, summaries, some "Failed to generate summary.".toList, r.2.2, false⟩)

/-! ## Pipeline orchestrator (`process_query`, lines 932-1246)

The embedding is total: the catch-all `except` of lines 1240-1246 (the only
`success=False` producer inside `process_query`) is unreachable, so every
result below carries `success = true`. -/

/-- The pipeline outcome envelope `{success, data?, error?}`. -/
structure PQResult where
  success : Bool
  data : Option PipelineResult
  error : Option Text
  deriving DecidableEq

/-- The content chosen from a `pageContent` dictionary (lines 1101-1107 and
1144-1150): HTML when present and nonempty, else plain text. -/
def pageUsedContent (p : Page) : Text :=
  if p.htmlContent ≠ [] then p.htmlContent else p.content

/-- Whether the page content carries (nonempty) HTML. -/
def pageHasHtml (p : Page) : Bool := decide (p.htmlContent ≠ [])

/-- The full-content evidence item built from page content for a question
(lines 1116-1122). -/
def pageFullItem (p : Page) : Summary :=
  ⟨p.title, p.url, pageUsedContent p, true, pageHasHtml p⟩

/-- The summarized evidence item built from page content on the normal path
(lines 1155-1162). -/
def pageSummarizedItem (sentTok wordTok : Text → List Text) (stops : List Text)
    (p : Page) : Summary :=
  ⟨p.title, p.url, summarize_text sentTok wordTok stops (pageUsedContent p) 5,
    false, pageHasHtml p⟩

/-- Conversion of the inline `additionalContexts` into evidence items
(lines 1056-1094): HTML body preferred over text, content longer than 50
characters required; full body for questions, summary otherwise. -/
def convertCtxs (sentTok wordTok : Text → List Text) (stops : List Text)
    (qIsQ : Bool) (ctxs : List Ctx) : List Summary :=
  ctxs.filterMap (fun c =>
    if 50 < (if c.contentHtml ≠ [] then c.contentHtml else c.contentText).length then
      (if qIsQ then
        some ⟨c.title, c.url, if c.contentHtml ≠ [] then c.contentHtml else c.contentText,
          true, decide (c.contentHtml ≠ [])⟩
      else
        some ⟨c.title, c.url,
          summarize_text sentTok wordTok stops
            (if c.contentHtml ≠ [] then c.contentHtml else c.contentText) 5,
          false, decide (c.contentHtml ≠ [])⟩)
    else none)

/-- The HTML-analysis system prompt (lines 990-997). -/
def htmlSystemPrompt : Text :=
  "You are a helpful assistant with expertise in understanding webpage structure and content. ".toList
  ++ "When analyzing HTML content, pay special attention to links, buttons, navigation elements, and UI components. ".toList
  ++ "If asked about specific UI elements or links, identify them clearly in your answer. ".toList
  ++ "Format links as '[Link text](URL)' in your response for clarity. ".toList
  ++ "Always provide direct answers based on the actual page content, ".toList
  ++ "and do not make assumptions about content that isn't visible.".toList

/-- The HTML-analysis user prompt (lines 999-1021), with the raw markup
hard-capped at 50000 characters. -/
def htmlUserPrompt (cq : Text) (p : Page) : Text :=
  "WEBPAGE ANALYSIS QUESTION: ".toList ++ cq ++ "\n\n".toList
  ++ "Below is the HTML content of a webpage with specially marked links in the format 'text [LINK: url]'.\n\n".toList
  ++ "Page title: ".toList ++ p.title ++ "\n".toList
  ++ "URL: ".toList ++ p.url ++ "\n\n".toList
  ++ "HTML CONTENT:\n".toList
  ++ (if 50000 < p.htmlContent.length then
      p.htmlContent.take 50000 ++ "... [HTML truncated]".toList
    else p.htmlContent)
  ++ "\n\n".toList
  ++ ("Please analyze this HTML to answer the question. If the question is about finding links, buttons, or navigation elements, list all relevant elements with their text and URLs. If asked about a specific link or UI element, provide details if found. If the information isn't available in the HTML, clearly state that you cannot find it.").toList

/-- The fixed "no relevant information" result (lines 1183-1202). -/
def pqDefaultNoInfo (cq : Text) (qIsQ : Bool) : PQResult :=
  ⟨true, some ⟨cq, [], some "No relevant information found.".toList, 0, qIsQ⟩, none⟩

/-- The normal-path evidence completion (lines 1139-1176): page content only
when nothing was collected yet, else provided URLs, else a search; the `elif`
chain means a too-short page yields nothing even when URLs were provided. -/
def pqCollectNormal (fetch : Text → Option Text) (extract : Text → Text)
    (getTitle : Text → Text) (sentTok wordTok : Text → List Text)
    (stops : List Text) (search : Text → List Text)
    (cq : Text) (page : Option Page) (urls : List Text)
    (s : List Summary) : List Summary :=
  if page.isSome ∧ s = [] then
    (match page with
    | some p =>
      if 200 < (pageUsedContent p).length then
        s ++ [pageSummarizedItem sentTok wordTok stops p]
      else s
    | none => s)
  else if urls ≠ [] then
    s ++ process_urls fetch extract getTitle sentTok wordTok stops urls
  else if s = [] then
    (if search cq ≠ [] then
      s ++ process_urls fetch extract getTitle sentTok wordTok stops (search cq)
    else s)
  else s

/-- The final generation step of `process_query` (lines 1178-1238): empty
evidence degrades to a general-knowledge answer (questions with model info)
or the fixed no-information result; generation failure is reported as
`success=true` with a fixed message and `generation_time = 0`. -/
def pqGenerate (isCmp : Text → Bool) (llm : Text × Text → Bool × Text × ℚ)
    (cq : Text) (qIsQ : Bool) (mi : Option ModelInfo)
    (hist : List HistItem) (s : List Summary) : PQResult :=
  if s = [] then
    (if qIsQ ∧ mi.isSome then
      (let r := create_question_answer isCmp llm cq [] hist
      if r.1 then ⟨true, some r.2, none⟩ else pqDefaultNoInfo cq qIsQ)
    else pqDefaultNoInfo cq qIsQ)
  else if mi.isNone then ⟨true, some ⟨cq, s, none, 0, qIsQ⟩, none⟩
  else
    (let r := if qIsQ then create_question_answer isCmp llm cq s hist
      else create_summary llm cq s
    if r.1 then ⟨true, some r.2, none⟩
    else ⟨true, some ⟨cq, s, some "Failed to generate a response.".toList, 0, qIsQ⟩, none⟩)

/-- Embeds `process_query` after the HTML-analysis special path (lines 1046-1238):
context conversion, the direct question-with-page-content attempt, then the
normal path. -/
def pqAfterHtml (extractQ : Text → Option Text) (fetch : Text → Option Text)
    (extract : Text → Text) (getTitle : Text → Text)
    (sentTok wordTok : Text → List Text) (stops : List Text)
    (search : Text → List Text) (isCmp : Text → Bool)
    (llm : Text × Text → Bool × Text × ℚ)
    (query : Text) (urls : List Text) (page : Option Page)
    (mi : Option ModelInfo) (isQParam : Option Bool)
    (hist : List HistItem) : PQResult :=
  let cq := clean_query extractQ query
  let qIsQ := pipeline_is_question query isQParam mi
  let s1 := convertCtxs sentTok wordTok stops qIsQ
    (match mi with | some m => m.additionalContexts | none => [])
  if qIsQ = true ∧ page.isSome ∧ mi.isSome then
    (let s2 := match page with
      | some p => if 200 < (pageUsedContent p).length then s1 ++ [pageFullItem p] else s1
      | none => s1
    if s2 ≠ [] then
      (let r := create_question_answer isCmp llm cq s2 hist
      if r.1 then ⟨true, some r.2, none⟩
      else pqGenerate isCmp llm
        cq qIsQ mi hist
        (pqCollectNormal fetch extract getTitle sentTok wordTok stops search cq page urls s2))
    else pqGenerate isCmp llm
      cq qIsQ mi hist
      (pqCollectNormal fetch extract getTitle sentTok wordTok stops search cq page urls s2))
  else pqGenerate isCmp llm
    cq qIsQ mi hist
    (pqCollectNormal fetch extract getTitle sentTok wordTok stops search cq page urls s1)

/-- Embeds `process_query` (lines 932-1246).  The HTML-analysis special path runs
first when the query is a question about links with HTML page content and
model info; its generation failure falls through to the standard pipeline. -/
def process_query (extractQ : Text → Option Text) (fetch : Text → Option Text)
    (extract : Text → Text) (getTitle : Text → Text)
    (sentTok wordTok : Text → List Text) (stops : List Text)
    (search : Text → List Text) (isCmp : Text → Bool)
    (llm : Text × Text → Bool × Text × ℚ)
    (query : Text) (urls : List Text) (page : Option Page)
    (mi : Option ModelInfo) (isQParam : Option Bool)
    (hist : List HistItem) : PQResult :=
  let cq := clean_query extractQ query
  let qIsQ := pipeline_is_question query isQParam mi
  if qIsQ && (match mi with | some m => m.isAboutLinks | none => false)
      && (match page with | some p => decide (p.htmlContent ≠ []) | none => false)
      && mi.isSome then
    (match page with
    | some p =>
      (let r := llm (htmlSystemPrompt, htmlUserPrompt cq p)
      if r.1 then ⟨true, some ⟨cq, [], some r.2.1, r.2.2, true⟩, none⟩
      else pqAfterHtml extractQ fetch extract getTitle sentTok wordTok stops search
        isCmp llm query urls page mi isQParam hist)
    | none =>
      pqAfterHtml extractQ fetch extract getTitle sentTok wordTok stops search
        isCmp llm query urls page mi isQParam hist)
  else pqAfterHtml extractQ fetch extract getTitle sentTok wordTok stops search
    isCmp llm query urls page mi isQParam hist

/-- A 60-character inline context (plain text, no HTML). -/
def cxCtx : Ctx := ⟨['C'], ['c', 'u'], List.replicate 60 'c', []⟩

/-- A 300-character page content (plain text, no HTML). -/
def cxPage : Page := ⟨['P'], ['p', 'u'], List.replicate 300 'p', []⟩

/-- Model info carrying the single inline context. -/
def cxModelInfo : ModelInfo := ⟨none, [], false, [cxCtx]⟩

/-! ## Theorems -/

theorem truncMarker_length : truncMarker.length = 29 := by decide

/-- If the estimate already fits the budget, truncation is the identity. -/
theorem truncate_of_est_le {text : Text} {k : Int}
    (h : (estimate_tokens text : Int) ≤ k) :
    truncate_content_by_tokens text k = text := by
  unfold truncate_content_by_tokens
  by_cases he : text = [] <;> simp [he, h]

/-- Core arithmetic bound: for a budget `k ≥ 100` that is exceeded, the
computed target length stays clearly below `4*k`. -/
theorem truncate_target_le {L e k : Nat} (hk : 100 ≤ k) (hke : k + 1 ≤ e)
    (hL4 : L ≤ 4 * e + 3) :
    9 * L * k / (10 * e) + 26 ≤ 4 * k := by
  have he101 : 101 ≤ e := by omega
  set d := 4 * k - 25 with hddef
  have hd : d + 25 = 4 * k := by omega
  have h375 : 375 ≤ d := by omega
  have hd4 : d + 29 ≤ 4 * e := by omega
  have h1 : 375 * e ≤ d * e := Nat.mul_le_mul_right e h375
  have h27 : 27 * d + 783 ≤ 108 * e := by omega
  have hkey : 900 * e + 27 * d + 675 < 4 * (d * e) := by linarith
  have m1 : 9 * L * (d + 25) ≤ 9 * (4 * e + 3) * (d + 25) :=
    Nat.mul_le_mul_right (d + 25) (by omega)
  have m2 : 9 * (4 * e + 3) * (d + 25) = 36 * (d * e) + 900 * e + 27 * d + 675 := by ring
  have m3 : 4 * (9 * L * k) = 9 * L * (d + 25) := by
    rw [hd]; ring
  have m4 : 4 * (d * (10 * e)) = 40 * (d * e) := by ring
  have hmul : 4 * (9 * L * k) < 4 * (d * (10 * e)) := by
    rw [m3, m4]; linarith
  have hlt : 9 * L * k < d * (10 * e) := Nat.lt_of_mul_lt_mul_left hmul
  have hdiv : 9 * L * k / (10 * e) < d :=
    (Nat.div_lt_iff_lt_mul (by omega)).mpr hlt
  omega

/-- Helper: the truncated text of a nonempty `text` whose estimate exceeds a
budget `k ≥ 100` has length at most `4*k.toNat + 3` (hence estimate `≤ k`)
and strictly less than `text.length`, and ends with the marker. -/
theorem truncate_overflow_spec {text : Text} {k : Int} (hk : 100 ≤ k)
    (hov : k < (estimate_tokens text : Int)) :
    (truncate_content_by_tokens text k).length ≤ 4 * k.toNat + 3
    ∧ (truncate_content_by_tokens text k).length < text.length
    ∧ truncMarker <:+ truncate_content_by_tokens text k := by
  have hne : text ≠ [] := by
    intro h
    rw [h] at hov
    simp [estimate_tokens] at hov
    omega
  set L := text.length with hLdef
  set kN := k.toNat with hkN
  have hk0 : (0 : Int) ≤ k := by omega
  have hkcast : (kN : Int) = k := Int.toNat_of_nonneg hk0
  have hkN100 : 100 ≤ kN := by omega
  set eN := L / 4 with heN
  have hest : estimate_tokens text = eN := by
    simp [estimate_tokens, hne, heN]
  have hLk : kN + 1 ≤ eN := by
    rw [hest] at hov
    omega
  have hL404 : 4 * kN + 4 ≤ L := by omega
  have hnle : ¬ ((estimate_tokens text : Int) ≤ k) := by omega
  have htgt : Int.tdiv (9 * (L : Int) * k) (10 * (estimate_tokens text : Int))
      = ((9 * L * kN / (10 * eN) : Nat) : Int) := by
    rw [hest, ← hkcast, Int.ofNat_tdiv]
    congr 1
  set tN := 9 * L * kN / (10 * eN) with htN
  have htb : tN + 26 ≤ 4 * kN := truncate_target_le hkN100 hLk (by omega)
  unfold truncate_content_by_tokens
  rw [if_neg hne, if_neg hnle]
  simp only [htgt]
  by_cases hsmall : ((tN : Int) < 100)
  · rw [if_pos hsmall]
    refine ⟨?_, ?_, List.suffix_append _ _⟩
    · simp [truncMarker_length, List.length_take]
      omega
    · simp [truncMarker_length, List.length_take]
      omega
  · rw [if_neg hsmall]
    have htoNat : (tN : Int).toNat = tN := by simp
    rw [htoNat]
    refine ⟨?_, ?_, List.suffix_append _ _⟩
    · simp [truncMarker_length, List.length_take]
      omega
    · simp [truncMarker_length, List.length_take]
      omega

/-- Main budget bound for the truncation primitive: for any budget
`k ≥ 100`, the estimate of the result is at most `k`. -/
theorem est_truncate_le (text : Text) (k : Int) (hk : 100 ≤ k) :
    (estimate_tokens (truncate_content_by_tokens text k) : Int) ≤ k := by
  by_cases hov : (estimate_tokens text : Int) ≤ k
  · rw [truncate_of_est_le hov]; exact hov
  · push_neg at hov
    obtain ⟨hlen, -, -⟩ := truncate_overflow_spec hk hov
    have hk0 : (0 : Int) ≤ k := by omega
    have hkcast : (k.toNat : Int) = k := Int.toNat_of_nonneg hk0
    have : estimate_tokens (truncate_content_by_tokens text k) ≤ k.toNat := by
      unfold estimate_tokens
      split
      · omega
      · omega
    omega

/-- C7: For every text `T` and every token limit `k ≥ 100`,
`estimate_tokens (truncate_content_by_tokens T k) ≤ k`; moreover the result is
`T` itself exactly when no shortening was needed, and otherwise it is strictly
shorter than `T` and carries the visible truncation marker as a suffix. -/
theorem truncate_budget_and_marker (text : Text) (k : Int) (hk : 100 ≤ k) :
    (estimate_tokens (truncate_content_by_tokens text k) : Int) ≤ k
    ∧ ((estimate_tokens text : Int) ≤ k → truncate_content_by_tokens text k = text)
    ∧ (k < (estimate_tokens text : Int) →
        (truncate_content_by_tokens text k).length < text.length
        ∧ truncMarker <:+ truncate_content_by_tokens text k) := by
  refine ⟨est_truncate_le text k hk, fun h => truncate_of_est_le h, fun hov => ?_⟩
  obtain ⟨-, h2, h3⟩ := truncate_overflow_spec hk hov
  exact ⟨h2, h3⟩

/-- Witness for C7 at a concrete input: 500 characters against a budget of
100 tokens. -/
theorem truncate_budget_and_marker_witness :
    (estimate_tokens (truncate_content_by_tokens (List.replicate 500 'a') 100) : Int) ≤ 100
    ∧ ((estimate_tokens (List.replicate 500 'a') : Int) ≤ 100 →
        truncate_content_by_tokens (List.replicate 500 'a') 100 = List.replicate 500 'a')
    ∧ (100 < (estimate_tokens (List.replicate 500 'a') : Int) →
        (truncate_content_by_tokens (List.replicate 500 'a') 100).length
            < (List.replicate 500 'a').length
        ∧ truncMarker <:+ truncate_content_by_tokens (List.replicate 500 'a') 100) :=
  truncate_budget_and_marker (List.replicate 500 'a') 100 (by norm_num)

/-- C8 counterexample: truncation is not idempotent for every token limit.
At limit `0` on a 4-character text, the first pass appends the marker (making
the estimate 8 tokens, still above 0), so a second pass appends the marker
again and the result changes. -/
theorem truncate_not_idempotent_at_zero :
    truncate_content_by_tokens
        (truncate_content_by_tokens ['a', 'a', 'a', 'a'] 0) 0
      ≠ truncate_content_by_tokens ['a', 'a', 'a', 'a'] 0 := by decide

/-- C8 amended: truncation is idempotent for every token limit `k ≥ 100`
(the range the spec's own §8 property uses). -/
theorem truncate_idempotent_of_hundred_le (text : Text) (k : Int) (hk : 100 ≤ k) :
    truncate_content_by_tokens (truncate_content_by_tokens text k) k
      = truncate_content_by_tokens text k :=
  truncate_of_est_le (est_truncate_le text k hk)

/-- Witness for the amended C8 at a concrete input. -/
theorem truncate_idempotent_witness :
    truncate_content_by_tokens
        (truncate_content_by_tokens (List.replicate 500 'a') 100) 100
      = truncate_content_by_tokens (List.replicate 500 'a') 100 :=
  truncate_idempotent_of_hundred_le (List.replicate 500 'a') 100 (by norm_num)

theorem mem_collapseWs {c : Char} :
    ∀ {l : Text}, c ∈ collapseWs l → c = ' ' ∨ (c ∈ l ∧ c.isWhitespace = false) := by
  intro l
  induction l using collapseWs.induct with
  | case1 => intro h; simp [collapseWs] at h
  | case2 c₀ rest hws ih =>
    intro h
    rw [collapseWs, if_pos hws] at h
    rcases List.mem_cons.mp h with h1 | h2
    · exact Or.inl h1
    · rcases ih h2 with h3 | ⟨h4, h5⟩
      · exact Or.inl h3
      · exact Or.inr ⟨List.mem_cons_of_mem _ ((List.dropWhile_sublist _).mem h4), h5⟩
  | case3 c₀ rest hws ih =>
    intro h
    rw [collapseWs, if_neg hws] at h
    rcases List.mem_cons.mp h with h1 | h2
    · subst h1
      exact Or.inr ⟨List.mem_cons_self _ _, by simpa using hws⟩
    · rcases ih h2 with h3 | ⟨h4, h5⟩
      · exact Or.inl h3
      · exact Or.inr ⟨List.mem_cons_of_mem _ h4, h5⟩

theorem dropWhile_head_false {p : Char → Bool} :
    ∀ {l : Text} {y : Char}, (List.dropWhile p l).head? = some y → p y = false := by
  intro l
  induction l with
  | nil => intro y h; simp at h
  | cons a r ih =>
    intro y h
    by_cases hp : p a
    · rw [List.dropWhile_cons_of_pos hp] at h
      exact ih h
    · rw [List.dropWhile_cons_of_neg hp] at h
      simp at h
      subst h
      simpa using hp

theorem head_collapseWs {y : Char} :
    ∀ {l : Text}, (collapseWs l).head? = some y →
      ∃ z, l.head? = some z
        ∧ ((z.isWhitespace = true ∧ y = ' ') ∨ (z.isWhitespace = false ∧ y = z)) := by
  intro l h
  match l with
  | [] => simp [collapseWs] at h
  | c :: rest =>
    by_cases hws : c.isWhitespace
    · rw [collapseWs, if_pos hws] at h
      simp at h
      exact ⟨c, rfl, Or.inl ⟨hws, h.symm⟩⟩
    · rw [collapseWs, if_neg hws] at h
      simp at h
      exact ⟨c, rfl, Or.inr ⟨by simpa using hws, h.symm⟩⟩

/-- No two adjacent characters of a collapsed string are both whitespace. -/
theorem chain_collapseWs :
    ∀ l : Text, List.Chain'
      (fun a b => ¬(a.isWhitespace = true ∧ b.isWhitespace = true)) (collapseWs l) := by
  intro l
  induction l using collapseWs.induct with
  | case1 => simp [collapseWs]
  | case2 c₀ rest hws ih =>
    rw [collapseWs, if_pos hws]
    refine List.chain'_cons'.mpr ⟨?_, ih⟩
    intro y hy
    obtain ⟨z, hz1, hz2⟩ := head_collapseWs (Option.mem_def.mp hy)
    have hzws : z.isWhitespace = false := dropWhile_head_false hz1
    rcases hz2 with ⟨hw, -⟩ | ⟨-, hyz⟩
    · rw [hzws] at hw; exact absurd hw (by simp)
    · subst hyz
      rintro ⟨-, hy2⟩
      rw [hzws] at hy2
      exact absurd hy2 (by simp)
  | case3 c₀ rest hws ih =>
    rw [collapseWs, if_neg hws]
    refine List.chain'_cons'.mpr ⟨?_, ih⟩
    intro y hy
    rintro ⟨h1, -⟩
    simp_all

theorem stripChars_prefix_of_collapse (l : Text) :
    ∃ m : Text, stripChars l <+: m ∧ m <:+ l := by
  refine ⟨l.dropWhile Char.isWhitespace, ?_, List.dropWhile_suffix _⟩
  exact List.rdropWhile_prefix _ _

theorem cleanFallback_length (q : Text) : (cleanFallback q).length ≤ 150 := by
  unfold cleanFallback
  simp [List.length_take]

theorem cleanFallback_chars {q : Text} {c : Char} (h : c ∈ cleanFallback q) :
    c = ' ' ∨ (wordChar c = true ∧ c.isWhitespace = false) := by
  unfold cleanFallback at h
  set rep := q.map (fun c => if wordChar c || c.isWhitespace then c else ' ') with hrep
  have h1 : c ∈ stripChars (collapseWs rep) := (List.take_sublist _ _).mem h
  obtain ⟨m, hm1, hm2⟩ := stripChars_prefix_of_collapse (collapseWs rep)
  have h2 : c ∈ collapseWs rep := hm2.sublist.mem (hm1.sublist.mem h1)
  rcases mem_collapseWs h2 with h3 | ⟨h4, h5⟩
  · exact Or.inl h3
  · right
    refine ⟨?_, h5⟩
    rw [hrep] at h4
    obtain ⟨a, -, ha⟩ := List.mem_map.mp h4
    by_cases hw : wordChar a
    · rw [if_pos (by simp [hw])] at ha
      rwa [← ha]
    · by_cases hws : a.isWhitespace
      · rw [if_pos (by simp [hws])] at ha
        rw [← ha] at h5
        simp [hws] at h5
      · rw [if_neg (by simp [hw, hws])] at ha
        rw [← ha] at h5
        simp at h5

theorem cleanFallback_no_double_ws (q : Text) :
    List.Chain' (fun a b => ¬(a.isWhitespace = true ∧ b.isWhitespace = true))
      (cleanFallback q) := by
  unfold cleanFallback
  set rep := q.map (fun c => if wordChar c || c.isWhitespace then c else ' ')
  have h0 := chain_collapseWs rep
  have h1 : List.Chain' (fun a b => ¬(a.isWhitespace = true ∧ b.isWhitespace = true))
      (stripChars (collapseWs rep)) := by
    unfold stripChars
    have hs := List.Chain'.suffix h0 (List.dropWhile_suffix Char.isWhitespace)
    exact List.Chain'.prefix hs ( List.rdropWhile_prefix Char.isWhitespace _)
  exact List.Chain'.prefix h1 ( List.take_prefix _ _)

/-- C9: when the query is not a URL carrying a `q` parameter, `clean_query`
returns the generic cleaning — at most 150 characters, every character a word
character or a single space, never two adjacent whitespace characters — and
when it is such a URL, the extracted `q` value is returned verbatim, with no
150-character cap. -/
theorem clean_query_spec (extractQ : Text → Option Text) (query : Text) :
    ((¬ (('?' ∈ query) ∧ (("http://".toList <:+: query) ∨ ("https://".toList <:+: query)))
        ∨ extractQ query = none) →
      clean_query extractQ query = cleanFallback query
      ∧ (clean_query extractQ query).length ≤ 150
      ∧ (∀ c ∈ clean_query extractQ query, c = ' ' ∨ wordChar c = true)
      ∧ List.Chain' (fun a b => ¬(a.isWhitespace = true ∧ b.isWhitespace = true))
          (clean_query extractQ query))
    ∧ (∀ v, (('?' ∈ query) ∧ (("http://".toList <:+: query) ∨ ("https://".toList <:+: query))) →
        extractQ query = some v → clean_query extractQ query = v) := by
  constructor
  · intro h
    have heq : clean_query extractQ query = cleanFallback query := by
      unfold clean_query cleanFallback
      rcases h with h | h
      · rw [if_neg h]
      · split
        · rw [h]
        · rfl
    refine ⟨heq, ?_, ?_, ?_⟩
    · rw [heq]; exact cleanFallback_length query
    · intro c hc
      rw [heq] at hc
      rcases cleanFallback_chars hc with h1 | ⟨h2, -⟩
      · exact Or.inl h1
      · exact Or.inr h2
    · rw [heq]; exact cleanFallback_no_double_ws query
  · intro v hcond hv
    unfold clean_query
    rw [if_pos hcond, hv]

/-- Witness for C9: on the plain query `"hi!  there"` the URL branch does not
apply, and on `"https://e.com/p?q=.."` with an extractor returning a 200-`'a'`
value the value is returned uncapped. -/
theorem clean_query_spec_witness :
    (clean_query (fun _ => none) "hi!  there".toList = cleanFallback "hi!  there".toList
      ∧ (clean_query (fun _ => none) "hi!  there".toList).length ≤ 150
      ∧ (∀ c ∈ clean_query (fun _ => none) "hi!  there".toList, c = ' ' ∨ wordChar c = true)
      ∧ List.Chain' (fun a b => ¬(a.isWhitespace = true ∧ b.isWhitespace = true))
          (clean_query (fun _ => none) "hi!  there".toList))
    ∧ clean_query (fun _ => some (List.replicate 200 'a')) "https://e.com/p?q=aa".toList
        = List.replicate 200 'a' := by
  constructor
  · exact (clean_query_spec (fun _ => none) "hi!  there".toList).1 (Or.inr rfl)
  · exact (clean_query_spec (fun _ => some (List.replicate 200 'a'))
      "https://e.com/p?q=aa".toList).2 (List.replicate 200 'a')
      ⟨by decide, Or.inr (by decide)⟩ rfl

/-- C6: a query beginning with `http://` or `https://` is never classified as
a question by `is_question`, and the pipeline's question flag is forced to
`false` for it, whatever the caller-supplied hints say. -/
theorem url_never_question (query : Text) (isQParam : Option Bool)
    (mi : Option ModelInfo)
    (h : "http://".toList <+: query ∨ "https://".toList <+: query) :
    is_question query = false ∧ pipeline_is_question query isQParam mi = false := by
  have hb : ("http://".toList.isPrefixOf query || "https://".toList.isPrefixOf query) = true := by
    rcases h with h | h
    · exact Bool.or_eq_true_iff.mpr (Or.inl ( List.isPrefixOf_iff_prefix.mpr h))
    · exact Bool.or_eq_true_iff.mpr (Or.inr ( List.isPrefixOf_iff_prefix.mpr h))
  constructor
  · unfold is_question
    rw [if_pos hb]
  · unfold pipeline_is_question isUrlQuery
    rw [if_pos hb]

/-- Witness for C6: a URL ending in `?` and containing interrogative words,
with every caller hint claiming it is a question. -/
theorem url_never_question_witness :
    is_question "https://x.com/what?".toList = false
    ∧ pipeline_is_question "https://x.com/what?".toList (some true)
        (some ⟨some true, "what is this?".toList, false, []⟩) = false :=
  url_never_question "https://x.com/what?".toList (some true)
    (some ⟨some true, "what is this?".toList, false, []⟩)
    (Or.inr (by decide))

/-- C10: a text of fewer than 100 characters is returned unchanged by
`summarize_text`, regardless of the requested sentence count. -/
theorem summarize_short_text_unchanged (sentTok wordTok : Text → List Text)
    (stops : List Text) (text : Text) (num : Nat) (h : text.length < 100) :
    summarize_text sentTok wordTok stops text num = text := by
  unfold summarize_text
  rw [if_pos h]

theorem pairwise_fst_lt_enumFrom {α : Type} :
    ∀ (l : List α) (n : Nat), List.Pairwise (fun a b => a.1 < b.1) (l.enumFrom n)
  | [], _ => by simp
  | a :: l, n => by
    refine List.pairwise_cons.mpr ⟨?_, pairwise_fst_lt_enumFrom l (n + 1)⟩
    rintro ⟨i, x⟩ hb
    have h := (List.mem_enumFrom hb).1
    simpa using h

theorem summaryScores_fn_fst (wordTok : Text → List Text) (wt : List Text)
    (p : Nat × Text) (x : Nat × Nat)
    (hx : (if ((wordTok (lowerText p.2)).filter (fun w => wt.contains w)) = [] then none
        else some (p.1,
          (((wordTok (lowerText p.2)).filter (fun w => wt.contains w)).map
            (fun w => wt.count w)).sum)) = some x) :
    x.1 = p.1 := by
  split at hx
  · exact absurd hx (by simp)
  · cases hx
    rfl

theorem pairwise_fst_lt_summaryScores (wordTok : Text → List Text)
    (wt : List Text) (sentences : List Text) :
    List.Pairwise (fun a b => a.1 < b.1) (summaryScores wordTok wt sentences) := by
  unfold summaryScores
  refine List.pairwise_filterMap.mpr ?_
  refine (pairwise_fst_lt_enumFrom sentences 0).imp ?_
  intro a b hab x hx y hy
  have h1 := summaryScores_fn_fst wordTok wt a x (Option.mem_def.mp hx)
  have h2 := summaryScores_fn_fst wordTok wt b y (Option.mem_def.mp hy)
  omega

theorem mem_summaryScores_lt (wordTok : Text → List Text) (wt : List Text)
    (sentences : List Text) (x : Nat × Nat)
    (hx : x ∈ summaryScores wordTok wt sentences) :
    x.1 < sentences.length := by
  unfold summaryScores at hx
  obtain ⟨p, hp, hfp⟩ := List.mem_filterMap.mp hx
  have hfst := summaryScores_fn_fst wordTok wt p x hfp
  rcases p with ⟨i, s⟩
  have h := (List.mem_enumFrom hp).2.1
  simp only at hfst
  omega

theorem take_eq_range_map_getD {α : Type} (l : List α) (n : Nat)
    (hn : n ≤ l.length) (d : α) :
    l.take n = (List.range n).map (fun i => l.getD i d) := by
  apply List.ext_getElem
  · simp [List.length_take, List.length_range]
    exact hn
  · intro i h1 h2
    have hi : i < l.length := by
      simp [List.length_take] at h1
      omega
    simp only [List.getElem_take, List.getElem_map, List.getElem_range]
    rw [List.getD_eq_getElem l d hi]

/-- C2 amended: for texts of at least 100 characters with more than `num`
sentences, `summarize_text` joins a selection of the text's sentences in
strictly increasing (original document) position order; the selection has
exactly `min num s` sentences where `s` is the number of scored sentences when
some sentence is scored, and is exactly the first `num` sentences when no
sentence is scored. -/
theorem summarize_selection_spec (sentTok wordTok : Text → List Text)
    (stops : List Text) (text : Text) (num : Nat)
    (h100 : 100 ≤ text.length) (hmore : num < (sentTok text).length) :
    ∃ idxs : List Nat,
      idxs.Pairwise (· < ·)
      ∧ (∀ i ∈ idxs, i < (sentTok text).length)
      ∧ summarize_text sentTok wordTok stops text num
          = joinSpace (idxs.map (fun i => (sentTok text).getD i []))
      ∧ (summaryScores wordTok (summaryWordTokens wordTok stops text) (sentTok text) = []
          → idxs = List.range num)
      ∧ (summaryScores wordTok (summaryWordTokens wordTok stops text) (sentTok text) ≠ []
          → idxs.length = min num
              (summaryScores wordTok (summaryWordTokens wordTok stops text)
                (sentTok text)).length) := by
  have hn100 : ¬ (text.length < 100) := by omega
  have hnle : ¬ ((sentTok text).length ≤ num) := by omega
  set sentences := sentTok text with hsent
  set wt := summaryWordTokens wordTok stops text with hwt
  set scores := summaryScores wordTok wt sentences with hscores
  by_cases hsc : scores = []
  · refine ⟨List.range num, List.pairwise_lt_range num, ?_, ?_, fun _ => rfl,
      fun h => absurd hsc h⟩
    · intro i hi
      have := List.mem_range.mp hi
      omega
    · unfold summarize_text
      rw [if_neg hn100, if_neg hnle, if_pos hsc]
      rw [take_eq_range_map_getD sentences num (by omega) []]
  · set sortDesc := scores.insertionSort (fun a b => b.2 ≤ a.2) with hsd
    set top := nlargestByScore num scores with htop
    set sorted := sortByIdx top with hsorted
    refine ⟨sorted.map Prod.fst, ?_, ?_, ?_, fun h => absurd h hsc, fun _ => ?_⟩
    · -- strictly increasing indices
      have hPsc : List.Pairwise (fun a b => a.1 < b.1) scores :=
        pairwise_fst_lt_summaryScores wordTok wt sentences
      have hNodup0 : (scores.map Prod.fst).Nodup :=
        List.pairwise_map.mpr (hPsc.imp fun h => Nat.ne_of_lt h)
      have hperm1 : sortDesc.Perm scores := List.perm_insertionSort _ _
      have hNodup1 : (sortDesc.map Prod.fst).Nodup :=
        ((hperm1.map Prod.fst).symm).nodup hNodup0
      have hNodup2 : (top.map Prod.fst).Nodup := by
        rw [htop]
        unfold nlargestByScore
        rw [← hsd, List.map_take]
        exact (List.take_sublist _ _).nodup hNodup1
      have hperm2 : sorted.Perm top := List.perm_insertionSort _ _
      have hNodup3 : (sorted.map Prod.fst).Nodup :=
        ((hperm2.map Prod.fst).symm).nodup hNodup2
      have hSorted : List.Pairwise (fun a b : Nat × Nat => a.1 ≤ b.1) sorted :=
        List.sorted_insertionSort _ top
      have hle : List.Pairwise (· ≤ ·) (sorted.map Prod.fst) :=
        List.pairwise_map.mpr hSorted
      exact (hle.and hNodup3).imp fun h => lt_of_le_of_ne h.1 h.2
    · -- bounds
      intro i hi
      obtain ⟨p, hp, hpi⟩ := List.mem_map.mp hi
      have h1 : p ∈ top := (List.perm_insertionSort _ _).mem_iff.mp hp
      have h2 : p ∈ sortDesc := by
        rw [htop] at h1
        unfold nlargestByScore at h1
        exact (List.take_sublist _ _).mem h1
      have h3 : p ∈ scores := (List.perm_insertionSort _ _).mem_iff.mp h2
      have := mem_summaryScores_lt wordTok wt sentences p h3
      omega
    · -- the returned text
      unfold summarize_text
      rw [if_neg hn100, if_neg hnle, if_neg hsc]
      rw [List.map_map]
      rfl
    · -- selection size
      have l1 : (sorted.map Prod.fst).length = sorted.length := List.length_map _ _
      have l2 : sorted.length = top.length := (List.perm_insertionSort _ _).length_eq
      have l3 : top.length = min num scores.length := by
        rw [htop]
        unfold nlargestByScore
        rw [List.length_take, List.length_insertionSort]
      omega

/-- C2 counterexample: `summarize_text` does not always return exactly `N`
sentences for a text with more than `N` sentences.  (a) A 41-character text
with 6 sentences is returned whole (6 sentences, not 5) because of the
100-character guard.  (b) A 101-character text with 7 sentences of which only
2 receive a score yields a 2-sentence summary, not 5. -/
theorem summarize_not_exactly_n :
    (demoShortText.length < 100
      ∧ (sentSimple demoShortText).length = 6
      ∧ summarize_text sentSimple wordSimple [] demoShortText 5 = demoShortText)
    ∧ (100 ≤ demoLongText.length
      ∧ (sentSimple demoLongText).length = 7
      ∧ summarize_text sentSimple wordSimple [] demoLongText 5
          = joinSpace [(sentSimple demoLongText).getD 0 [],
              (sentSimple demoLongText).getD 1 []]
      ∧ (summaryScores wordSimple (summaryWordTokens wordSimple [] demoLongText)
          (sentSimple demoLongText)).length = 2) := by decide

/-- Witness for the amended C2 at the concrete 101-character, 7-sentence
input. -/
theorem summarize_selection_spec_witness :
    ∃ idxs : List Nat,
      idxs.Pairwise (· < ·)
      ∧ (∀ i ∈ idxs, i < (sentSimple demoLongText).length)
      ∧ summarize_text sentSimple wordSimple [] demoLongText 5
          = joinSpace (idxs.map (fun i => (sentSimple demoLongText).getD i []))
      ∧ (summaryScores wordSimple (summaryWordTokens wordSimple [] demoLongText)
          (sentSimple demoLongText) = [] → idxs = List.range 5)
      ∧ (summaryScores wordSimple (summaryWordTokens wordSimple [] demoLongText)
          (sentSimple demoLongText) ≠ [] →
          idxs.length = min 5
            (summaryScores wordSimple (summaryWordTokens wordSimple [] demoLongText)
              (sentSimple demoLongText)).length) :=
  summarize_selection_spec sentSimple wordSimple [] demoLongText 5
    (by decide) (by decide)

/-- Witness for C10: a 20-character text with 7 sentences (more than the
target 5) is returned unchanged — no sentence selection happens. -/
theorem summarize_short_text_unchanged_witness :
    "A. B. C. D. E. F. G.".toList.length < 100
    ∧ 5 < (sentSimple "A. B. C. D. E. F. G.".toList).length
    ∧ summarize_text sentSimple wordSimple [] "A. B. C. D. E. F. G.".toList 5
        = "A. B. C. D. E. F. G.".toList :=
  ⟨by decide, by decide,
    summarize_short_text_unchanged sentSimple wordSimple [] _ 5 (by decide)⟩

section ProcessUrlsLemmas

variable (fetch : Text → Option Text) (extract : Text → Text) (getTitle : Text → Text)

variable (sentTok wordTok : Text → List Text) (stops : List Text)

theorem process_urls_aux_full (l : List Text) (acc : List Summary)
    (h : 3 ≤ acc.length) :
    process_urls_aux fetch extract getTitle sentTok wordTok stops l acc = (acc, []) := by
  cases l with
  | nil => rfl
  | cons u rest => rw [process_urls_aux, if_pos h]

theorem process_urls_aux_length :
    ∀ (l : List Text) (acc : List Summary), acc.length ≤ 3 →
      (process_urls_aux fetch extract getTitle sentTok wordTok stops l acc).1.length ≤ 3
  | [], acc, h => h
  | url :: rest, acc, h => by
    rw [process_urls_aux]
    by_cases hf : 3 ≤ acc.length
    · rw [if_pos hf]; exact h
    · rw [if_neg hf]
      cases hfetch : fetch url with
      | none => exact process_urls_aux_length rest acc h
      | some page =>
        dsimp only
        by_cases hlen : (extract page).length < 200
        · rw [if_pos hlen]
          exact process_urls_aux_length rest acc h
        · rw [if_neg hlen]
          by_cases hsum : summarize_text sentTok wordTok stops (extract page) 5 = []
          · rw [if_pos hsum]
            exact process_urls_aux_length rest acc h
          · rw [if_neg hsum]
            refine process_urls_aux_length rest _ ?_
            simp only [List.length_append, List.length_cons, List.length_nil]
            omega

theorem process_urls_aux_append :
    ∀ (l₁ l₂ : List Text) (acc : List Summary),
      process_urls_aux fetch extract getTitle sentTok wordTok stops (l₁ ++ l₂) acc
        = ((process_urls_aux fetch extract getTitle sentTok wordTok stops l₂
              (process_urls_aux fetch extract getTitle sentTok wordTok stops l₁ acc).1).1,
           (process_urls_aux fetch extract getTitle sentTok wordTok stops l₁ acc).2
             ++ (process_urls_aux fetch extract getTitle sentTok wordTok stops l₂
              (process_urls_aux fetch extract getTitle sentTok wordTok stops l₁ acc).1).2)
  | [], l₂, acc => by simp [process_urls_aux]
  | u :: rest, l₂, acc => by
    by_cases hf : 3 ≤ acc.length
    · rw [List.cons_append, process_urls_aux, if_pos hf,
        process_urls_aux, if_pos hf,
        process_urls_aux_full fetch extract getTitle sentTok wordTok stops l₂ acc hf]
      simp
    · rw [List.cons_append, process_urls_aux, if_neg hf]
      conv_rhs => rw [process_urls_aux, if_neg hf]
      cases hfetch : fetch u with
      | none =>
        dsimp only
        rw [process_urls_aux_append rest l₂ acc]
        simp
      | some page =>
        dsimp only
        by_cases hlen : (extract page).length < 200
        · rw [if_pos hlen, if_pos hlen]
          rw [process_urls_aux_append rest l₂ acc]
          simp
        · rw [if_neg hlen, if_neg hlen]
          by_cases hsum : summarize_text sentTok wordTok stops (extract page) 5 = []
          · rw [if_pos hsum, if_pos hsum]
            rw [process_urls_aux_append rest l₂ acc]
            simp
          · rw [if_neg hsum, if_neg hsum]
            rw [process_urls_aux_append rest l₂ _]
            simp

theorem process_urls_aux_mem :
    ∀ (l : List Text) (acc : List Summary) (s : Summary),
      s ∈ (process_urls_aux fetch extract getTitle sentTok wordTok stops l acc).1 →
      s ∈ acc ∨ (s.url ∈ l ∧ ∃ page, fetch s.url = some page
        ∧ 200 ≤ (extract page).length
        ∧ s.summary = summarize_text sentTok wordTok stops (extract page) 5
        ∧ s.is_full_content = false)
  | [], acc, s, h => Or.inl h
  | url :: rest, acc, s, h => by
    rw [process_urls_aux] at h
    by_cases hf : 3 ≤ acc.length
    · rw [if_pos hf] at h
      exact Or.inl h
    · rw [if_neg hf] at h
      cases hfetch : fetch url with
      | none =>
        rw [hfetch] at h
        dsimp only at h
        rcases process_urls_aux_mem rest acc s h with h1 | ⟨h2, h3⟩
        · exact Or.inl h1
        · exact Or.inr ⟨List.mem_cons_of_mem _ h2, h3⟩
      | some page =>
        rw [hfetch] at h
        dsimp only at h
        by_cases hlen : (extract page).length < 200
        · rw [if_pos hlen] at h
          rcases process_urls_aux_mem rest acc s h with h1 | ⟨h2, h3⟩
          · exact Or.inl h1
          · exact Or.inr ⟨List.mem_cons_of_mem _ h2, h3⟩
        · rw [if_neg hlen] at h
          by_cases hsum : summarize_text sentTok wordTok stops (extract page) 5 = []
          · rw [if_pos hsum] at h
            rcases process_urls_aux_mem rest acc s h with h1 | ⟨h2, h3⟩
            · exact Or.inl h1
            · exact Or.inr ⟨List.mem_cons_of_mem _ h2, h3⟩
          · rw [if_neg hsum] at h
            rcases process_urls_aux_mem rest _ s h with h1 | ⟨h2, h3⟩
            · rcases List.mem_append.mp h1 with h4 | h4
              · exact Or.inl h4
              · have hs : s = ⟨getTitle page, url,
                    summarize_text sentTok wordTok stops (extract page) 5, false, false⟩ := by
                  simpa using h4
                subst hs
                exact Or.inr ⟨List.mem_cons_self _ _,
                  page, hfetch, by omega, rfl, rfl⟩
            · exact Or.inr ⟨List.mem_cons_of_mem _ h2, h3⟩

/-- C5: evidence collection from provided URLs returns at most 3 items; every
item comes from a successfully fetched page whose extracted text has at least
200 characters (and carries its 5-sentence-target summary); and once a prefix
of the URL list has already produced 3 items, processing the full list changes
nothing — no URL after that point is fetched. -/
theorem process_urls_spec (urls : List Text) :
    (process_urls fetch extract getTitle sentTok wordTok stops urls).length ≤ 3
    ∧ (∀ s ∈ process_urls fetch extract getTitle sentTok wordTok stops urls,
        s.url ∈ urls ∧ ∃ page, fetch s.url = some page
          ∧ 200 ≤ (extract page).length
          ∧ s.summary = summarize_text sentTok wordTok stops (extract page) 5)
    ∧ (∀ pre post, urls = pre ++ post →
        3 ≤ (process_urls fetch extract getTitle sentTok wordTok stops pre).length →
        process_urls fetch extract getTitle sentTok wordTok stops urls
            = process_urls fetch extract getTitle sentTok wordTok stops pre
          ∧ process_urls_fetched fetch extract getTitle sentTok wordTok stops urls
            = process_urls_fetched fetch extract getTitle sentTok wordTok stops pre) := by
  refine ⟨?_, ?_, ?_⟩
  · exact process_urls_aux_length fetch extract getTitle sentTok wordTok stops urls []
      (by simp)
  · intro s hs
    rcases process_urls_aux_mem fetch extract getTitle sentTok wordTok stops urls [] s hs
      with h1 | ⟨h2, page, h3, h4, h5, -⟩
    · simp at h1
    · exact ⟨h2, page, h3, h4, h5⟩
  · intro pre post hsplit hfull
    subst hsplit
    unfold process_urls at hfull ⊢
    unfold process_urls_fetched
    rw [process_urls_aux_append fetch extract getTitle sentTok wordTok stops pre post []]
    rw [process_urls_aux_full fetch extract getTitle sentTok wordTok stops post _ hfull]
    simp

end ProcessUrlsLemmas

/-- Witness for C5 at a concrete input: four URLs that all succeed (fetch is
the identity, extraction is the identity); only three items are kept. -/
theorem process_urls_spec_witness :
    ((process_urls some id (fun _ => ['T']) sentSimple wordSimple []
        (List.replicate 4 demoPage)).length ≤ 3
      ∧ (∀ s ∈ process_urls some id (fun _ => ['T']) sentSimple wordSimple []
            (List.replicate 4 demoPage),
          s.url ∈ List.replicate 4 demoPage ∧ ∃ page, some s.url = some page
            ∧ 200 ≤ (id page : Text).length
            ∧ s.summary = summarize_text sentSimple wordSimple [] (id page) 5)
      ∧ (∀ pre post, List.replicate 4 demoPage = pre ++ post →
          3 ≤ (process_urls some id (fun _ => ['T']) sentSimple wordSimple [] pre).length →
          process_urls some id (fun _ => ['T']) sentSimple wordSimple []
              (List.replicate 4 demoPage)
            = process_urls some id (fun _ => ['T']) sentSimple wordSimple [] pre
          ∧ process_urls_fetched some id (fun _ => ['T']) sentSimple wordSimple []
              (List.replicate 4 demoPage)
            = process_urls_fetched some id (fun _ => ['T']) sentSimple wordSimple [] pre)) :=
  process_urls_spec some id (fun _ => ['T']) sentSimple wordSimple []
    (List.replicate 4 demoPage)

theorem qaSystemPrompt_ne_nil : qaSystemPrompt ≠ [] := by decide

theorem qaSystemPrompt_est : estimate_tokens qaSystemPrompt = 252 := by
  unfold estimate_tokens
  rw [if_neg qaSystemPrompt_ne_nil]
  have hlen : qaSystemPrompt.length = 1010 := by
    unfold qaSystemPrompt
    simp only [List.length_append]
    decide
  rw [hlen]

/-- C1 amended: the user prompt built by `create_question_answer` always
estimates to at most the 180000-token total ceiling; each full-content
source's visible content estimates to at most its per-source allotment
whenever that allotment is at least 100 tokens, and likewise on the
summarized path (the truncation primitive's minimum-fragment floor can exceed
smaller allotments); and whenever system plus assembled user tokens exceed
the ceiling, the final global check truncates the assembled prompt against
the remaining allowance `180000 - system_tokens - 1000`. -/
theorem create_question_prompt_budget (isCmp : Text → Bool) (query : Text)
    (summaries : List Summary) (hist : List HistItem)
    (_hsum : 100000 < ((summaries.map (fun s => estimate_tokens s.summary)).sum)) :
    estimate_tokens (qaUserPrompt isCmp query summaries hist) ≤ 180000
    ∧ (∀ s ∈ summaries, s.is_full_content = true →
        100 ≤ qaTpsFull isCmp query summaries hist →
        (estimate_tokens (qaVisibleFull (qaTpsFull isCmp query summaries hist) s) : Int)
          ≤ qaTpsFull isCmp query summaries hist)
    ∧ (∀ s ∈ summaries,
        100 ≤ qaTpsElse isCmp query summaries hist →
        (estimate_tokens (qaVisibleElse (qaTpsElse isCmp query summaries hist) s) : Int)
          ≤ qaTpsElse isCmp query summaries hist)
    ∧ (180000 < estimate_tokens qaSystemPrompt
          + estimate_tokens (qaUserPromptPre isCmp query summaries hist) →
        qaUserPrompt isCmp query summaries hist
          = truncate_content_by_tokens (qaUserPromptPre isCmp query summaries hist)
              (180000 - (estimate_tokens qaSystemPrompt : Int) - 1000)) := by
  refine ⟨?_, ?_, ?_, ?_⟩
  · unfold qaUserPrompt
    split
    · have hS := qaSystemPrompt_est
      have hk : (100 : Int) ≤ 180000 - (estimate_tokens qaSystemPrompt : Int) - 1000 := by
        omega
      have := est_truncate_le (qaUserPromptPre isCmp query summaries hist)
        (180000 - (estimate_tokens qaSystemPrompt : Int) - 1000) hk
      omega
    · omega
  · intro s _ hfull htps
    unfold qaVisibleFull
    split
    · exact est_truncate_le _ _ htps
    · omega
  · intro s _ htps
    unfold qaVisibleElse
    split
    · have h125 : (estimate_tokens (List.replicate 500 '.') : Nat) = 125 := by decide
      rw [h125]
      have hk : (100 : Int) ≤ min (qaTpsElse isCmp query summaries hist) ((125 : Nat) : Int) := by
        have : ((125 : Nat) : Int) = 125 := by norm_num
        rw [this]
        omega
      have := est_truncate_le s.summary
        (min (qaTpsElse isCmp query summaries hist) ((125 : Nat) : Int)) hk
      have hmin : min (qaTpsElse isCmp query summaries hist) ((125 : Nat) : Int)
          ≤ qaTpsElse isCmp query summaries hist := min_le_left _ _
      omega
    · omega
  · intro hover
    unfold qaUserPrompt
    rw [if_pos hover]

theorem cx_est_sum :
    100000 < ((cxSummaries.map (fun s => estimate_tokens s.summary)).sum) := by
  rw [show cxSummaries = List.replicate 2500 cxSource from rfl, List.map_replicate,
    List.sum_replicate]
  have h : estimate_tokens cxSource.summary = 51 := by decide
  rw [h]
  norm_num

/-- C1 counterexample: with 2500 full-content sources of 204 characters each
(token sum 127500 > 100000) and a one-character query, the per-source
allotment is `100000 // 2500 = 40` tokens, but the truncated visible content
of each source estimates to 43 tokens — the per-source bound of the claim
fails as stated. -/
theorem prompt_per_source_allotment_violated :
    100000 < ((cxSummaries.map (fun s => estimate_tokens s.summary)).sum)
    ∧ cxSource ∈ cxSummaries
    ∧ cxSource.is_full_content = true
    ∧ qaTpsFull (fun _ => false) ['q'] cxSummaries [] = 40
    ∧ 40 < (estimate_tokens (qaVisibleFull
        (qaTpsFull (fun _ => false) ['q'] cxSummaries []) cxSource) : Int) := by
  have htps : qaTpsFull (fun _ => false) ['q'] cxSummaries [] = 40 := by
    unfold qaTpsFull qaTokensPerSourceFull
    rw [show cxSummaries = List.replicate 2500 cxSource from rfl, List.filter_replicate]
    rw [if_pos (show cxSource.is_full_content = true from rfl), List.length_replicate]
    have hcb : qaCountBeforeSources ((fun _ : Text => false) (qaCleanQuery ['q']))
        ['q'] [] = 255 := by
      unfold qaCountBeforeSources
      rw [qaSystemPrompt_est]
      decide
    rw [hcb]
    decide
  refine ⟨cx_est_sum, List.mem_replicate.mpr ⟨by norm_num, rfl⟩, rfl, htps, ?_⟩
  rw [htps]
  decide

/-- Witness for the amended C1 at the same concrete over-budget evidence
set. -/
theorem create_question_prompt_budget_witness :
    estimate_tokens (qaUserPrompt (fun _ => false) ['q'] cxSummaries []) ≤ 180000
    ∧ (∀ s ∈ cxSummaries, s.is_full_content = true →
        100 ≤ qaTpsFull (fun _ => false) ['q'] cxSummaries [] →
        (estimate_tokens (qaVisibleFull
            (qaTpsFull (fun _ => false) ['q'] cxSummaries []) s) : Int)
          ≤ qaTpsFull (fun _ => false) ['q'] cxSummaries [])
    ∧ (∀ s ∈ cxSummaries,
        100 ≤ qaTpsElse (fun _ => false) ['q'] cxSummaries [] →
        (estimate_tokens (qaVisibleElse
            (qaTpsElse (fun _ => false) ['q'] cxSummaries []) s) : Int)
          ≤ qaTpsElse (fun _ => false) ['q'] cxSummaries [])
    ∧ (180000 < estimate_tokens qaSystemPrompt
          + estimate_tokens (qaUserPromptPre (fun _ => false) ['q'] cxSummaries []) →
        qaUserPrompt (fun _ => false) ['q'] cxSummaries []
          = truncate_content_by_tokens
              (qaUserPromptPre (fun _ => false) ['q'] cxSummaries [])
              (180000 - (estimate_tokens qaSystemPrompt : Int) - 1000)) :=
  create_question_prompt_budget (fun _ => false) ['q'] cxSummaries [] cx_est_sum

theorem pqGenerate_llm_failure (isCmp : Text → Bool)
    (llm : Text × Text → Bool × Text × ℚ) (cq : Text) (qIsQ : Bool)
    (m : ModelInfo) (hist : List HistItem) (s : List Summary)
    (hllm : ∀ p, (llm p).1 = false) :
    (pqGenerate isCmp llm cq qIsQ (some m) hist s).success = true
    ∧ ∃ pr, (pqGenerate isCmp llm cq qIsQ (some m) hist s).data = some pr
        ∧ pr.generation_time = 0
        ∧ (pr.consolidated_summary = some "Failed to generate a response.".toList
          ∨ pr.consolidated_summary = some "No relevant information found.".toList) := by
  unfold pqGenerate
  split
  · split
    · simp [create_question_answer, hllm, pqDefaultNoInfo]
    · simp [pqDefaultNoInfo]
  · split
    · simp_all
    · by_cases hq : qIsQ = true
      · simp [hq, create_question_answer, hllm]
      · simp [hq, create_summary, hllm]

/-- Given an always-failing LLM, `process_query` reduces to the standard
(post-HTML) pipeline. -/
theorem process_query_llm_failure_red (extractQ : Text → Option Text)
    (fetch : Text → Option Text) (extract : Text → Text) (getTitle : Text → Text)
    (sentTok wordTok : Text → List Text) (stops : List Text)
    (search : Text → List Text) (isCmp : Text → Bool)
    (llm : Text × Text → Bool × Text × ℚ)
    (query : Text) (urls : List Text) (page : Option Page)
    (mi : Option ModelInfo) (isQParam : Option Bool) (hist : List HistItem)
    (hllm : ∀ p, (llm p).1 = false) :
    process_query extractQ fetch extract getTitle sentTok wordTok stops search
        isCmp llm query urls page mi isQParam hist
      = pqAfterHtml extractQ fetch extract getTitle sentTok wordTok stops search
        isCmp llm query urls page mi isQParam hist := by
  unfold process_query
  split <;> try rfl
  all_goals try (split <;> try rfl)
  all_goals simp [hllm]

/-- C4 amended: when the LLM client fails on every call and model info is
present, `process_query` still returns `success = true` with a user-facing
failure message in `consolidated_summary`, but with `generation_time = 0` —
the elapsed time measured inside the generator is discarded at the pipeline
boundary. -/
theorem llm_failure_soft (extractQ : Text → Option Text)
    (fetch : Text → Option Text) (extract : Text → Text) (getTitle : Text → Text)
    (sentTok wordTok : Text → List Text) (stops : List Text)
    (search : Text → List Text) (isCmp : Text → Bool)
    (llm : Text × Text → Bool × Text × ℚ)
    (query : Text) (urls : List Text) (page : Option Page)
    (m : ModelInfo) (isQParam : Option Bool) (hist : List HistItem)
    (hllm : ∀ p, (llm p).1 = false) :
    (process_query extractQ fetch extract getTitle sentTok wordTok stops search
        isCmp llm query urls page (some m) isQParam hist).success = true
    ∧ ∃ pr, (process_query extractQ fetch extract getTitle sentTok wordTok stops
          search isCmp llm query urls page (some m) isQParam hist).data = some pr
        ∧ pr.generation_time = 0
        ∧ (pr.consolidated_summary = some "Failed to generate a response.".toList
          ∨ pr.consolidated_summary = some "No relevant information found.".toList) := by
  rw [process_query_llm_failure_red extractQ fetch extract getTitle sentTok wordTok
    stops search isCmp llm query urls page (some m) isQParam hist hllm]
  unfold pqAfterHtml
  simp only [create_question_answer, hllm, Bool.false_eq_true, if_false]
  split
  · split
    · exact pqGenerate_llm_failure _ _ _ _ _ _ _ hllm
    · exact pqGenerate_llm_failure _ _ _ _ _ _ _ hllm
  · exact pqGenerate_llm_failure _ _ _ _ _ _ _ hllm

/-- C4 counterexample: a question with no evidence, whose LLM call fails
after 7 seconds of elapsed time — the pipeline result reports
`generation_time = 0`, not the elapsed time, so "generationTime reflects the
elapsed time up to the failure" is false on the code. -/
theorem generation_time_not_elapsed :
    ((process_query (fun _ => none) (fun _ => none) id id (fun _ => [])
        (fun _ => []) [] (fun _ => []) (fun _ => false)
        (fun _ => (false, [], (7 : ℚ)))
        "what is x".toList [] none (some ⟨none, [], false, []⟩) none []).data.map
      (fun pr => pr.generation_time)) = some 0
    ∧ ((process_query (fun _ => none) (fun _ => none) id id (fun _ => [])
        (fun _ => []) [] (fun _ => []) (fun _ => false)
        (fun _ => (false, [], (7 : ℚ)))
        "what is x".toList [] none (some ⟨none, [], false, []⟩) none []).data.map
      (fun pr => pr.consolidated_summary))
        = some (some "No relevant information found.".toList)
    ∧ (0 : ℚ) ≠ 7 := by
  refine ⟨rfl, rfl, by norm_num⟩

/-- Witness for the amended C4 at the same concrete failing-LLM request. -/
theorem llm_failure_soft_witness :
    (process_query (fun _ => none) (fun _ => none) id id (fun _ => [])
        (fun _ => []) [] (fun _ => []) (fun _ => false)
        (fun _ => (false, [], (7 : ℚ)))
        "what is x".toList [] none (some ⟨none, [], false, []⟩) none []).success = true
    ∧ ∃ pr, (process_query (fun _ => none) (fun _ => none) id id (fun _ => [])
          (fun _ => []) [] (fun _ => []) (fun _ => false)
          (fun _ => (false, [], (7 : ℚ)))
          "what is x".toList [] none (some ⟨none, [], false, []⟩) none []).data = some pr
        ∧ pr.generation_time = 0
        ∧ (pr.consolidated_summary = some "Failed to generate a response.".toList
          ∨ pr.consolidated_summary = some "No relevant information found.".toList) :=
  llm_failure_soft (fun _ => none) (fun _ => none) id id (fun _ => [])
    (fun _ => []) [] (fun _ => []) (fun _ => false)
    (fun _ => (false, [], (7 : ℚ)))
    "what is x".toList [] none ⟨none, [], false, []⟩ none []
    (fun _ => rfl)

/-- C3 amended: inline `additionalContexts` are converted first and
unconditionally (full body for questions, summary otherwise); when any
context produced evidence, supplied page content does not replace it — for a
question the page (content > 200 chars) is appended after the context items,
and for a non-question the page is skipped entirely.  (Stated with no
provided URLs; the URL branch is claim C5's subject.) -/
theorem additional_contexts_precede_page (extractQ : Text → Option Text)
    (fetch : Text → Option Text) (extract : Text → Text) (getTitle : Text → Text)
    (sentTok wordTok : Text → List Text) (stops : List Text)
    (search : Text → List Text) (isCmp : Text → Bool)
    (llm : Text × Text → Bool × Text × ℚ)
    (query : Text) (p : Page) (m : ModelInfo) (isQParam : Option Bool)
    (hist : List HistItem)
    (hllm : ∀ q, (llm q).1 = true)
    (hlinks : m.isAboutLinks = false)
    (hctx : convertCtxs sentTok wordTok stops
        (pipeline_is_question query isQParam (some m)) m.additionalContexts ≠ []) :
    (process_query extractQ fetch extract getTitle sentTok wordTok stops search
        isCmp llm query [] (some p) (some m) isQParam hist).success = true
    ∧ ((process_query extractQ fetch extract getTitle sentTok wordTok stops search
        isCmp llm query [] (some p) (some m) isQParam hist).data.map
          (fun pr => pr.summaries))
      = some (convertCtxs sentTok wordTok stops
            (pipeline_is_question query isQParam (some m)) m.additionalContexts
          ++ (if pipeline_is_question query isQParam (some m) = true
                ∧ 200 < (pageUsedContent p).length then
              [pageFullItem p]
            else [])) := by
  unfold process_query
  try dsimp only
  rw [hlinks]
  simp only [Bool.and_false, Bool.false_and, Bool.false_eq_true, if_false]
  unfold pqAfterHtml
  try dsimp only
  by_cases hq : pipeline_is_question query isQParam (some m) = true
  · rw [if_pos ⟨hq, rfl, rfl⟩]
    try dsimp only
    by_cases hlen : 200 < (pageUsedContent p).length
    · rw [if_pos hlen]
      have hne : convertCtxs sentTok wordTok stops
          (pipeline_is_question query isQParam (some m)) m.additionalContexts
          ++ [pageFullItem p] ≠ [] := by simp
      rw [if_pos hne]
      simp only [create_question_answer, hllm, if_true]
      rw [if_pos ⟨hq, hlen⟩]
      exact ⟨trivial, rfl⟩
    · rw [if_neg hlen, if_pos hctx]
      simp only [create_question_answer, hllm, if_true]
      rw [if_neg (by intro h; exact hlen h.2)]
      simp
  · rw [if_neg (by intro h; exact hq h.1)]
    rw [if_neg (by intro h; exact hq h.1)]
    unfold pqCollectNormal
    rw [if_neg (by intro h; exact hctx h.2)]
    rw [if_neg (by simp)]
    rw [if_neg hctx]
    unfold pqGenerate
    rw [if_neg hctx]
    rw [if_neg (by simp)]
    have hqf : pipeline_is_question query isQParam (some m) = false := by
      simpa using hq
    rw [hqf]
    simp only [Bool.false_eq_true, if_false, create_summary, hllm, if_true]
    simp [hqf]

/-- C3 counterexample: a non-question request that supplies both page content
(300 chars, well over the 200-char threshold) and an inline context (60
chars): the pipeline's evidence is exactly the converted context item — the
page content contributes nothing, contradicting the claimed precedence in
which supplied page content alone produces the evidence and contexts are
converted only when no page content supplies evidence. -/
theorem context_converted_despite_page :
    ((process_query (fun _ => none) (fun _ => none) id id sentSimple wordSimple []
        (fun _ => []) (fun _ => false) (fun _ => (true, ['o', 'k'], 0))
        "zz".toList [] (some cxPage) (some cxModelInfo) none []).data.map
      (fun pr => pr.summaries))
      = some [⟨['C'], ['c', 'u'], List.replicate 60 'c', false, false⟩]
    ∧ (⟨['C'], ['c', 'u'], List.replicate 60 'c', false, false⟩ : Summary).url
        ≠ cxPage.url := by
  exact ⟨rfl, by decide⟩

/-- Witness for the amended C3 at the same concrete input. -/
theorem additional_contexts_precede_page_witness :
    (process_query (fun _ => none) (fun _ => none) id id sentSimple wordSimple []
        (fun _ => []) (fun _ => false) (fun _ => (true, ['o', 'k'], 0))
        "zz".toList [] (some cxPage) (some cxModelInfo) none []).success = true
    ∧ ((process_query (fun _ => none) (fun _ => none) id id sentSimple wordSimple []
        (fun _ => []) (fun _ => false) (fun _ => (true, ['o', 'k'], 0))
        "zz".toList [] (some cxPage) (some cxModelInfo) none []).data.map
          (fun pr => pr.summaries))
      = some (convertCtxs sentSimple wordSimple []
            (pipeline_is_question "zz".toList none (some cxModelInfo))
            cxModelInfo.additionalContexts
          ++ (if pipeline_is_question "zz".toList none (some cxModelInfo) = true
                ∧ 200 < (pageUsedContent cxPage).length then
              [pageFullItem cxPage]
            else [])) :=
  additional_contexts_precede_page (fun _ => none) (fun _ => none) id id
    sentSimple wordSimple [] (fun _ => []) (fun _ => false)
    (fun _ => (true, ['o', 'k'], 0)) "zz".toList cxPage cxModelInfo none []
    (fun _ => rfl) rfl (by decide)

end Browzer
